import Mathlib

/-!
Shallow embedding of the rs-git-fsmonitor hook (src/main.rs).

The hook is a single-invocation translator between git's fsmonitor hook
protocol (version 2) and the watchman JSON protocol.  We embed:

  * a JSON value type mirroring serde_json's Value (numbers restricted to
    the unsigned integers this program produces);
  * the non-panicking index operation response[key] (Null on missing key
    or non-object receiver), as_str and as_array accessors;
  * the token interpreter of get_watchman_query (main.rs lines 159-181);
  * the effectful run of query_watchman / add_to_watchman /
    get_watchman_clock (main.rs lines 36-157) as a pure function from the
    invocation inputs and the watcher's responses to a trace of effects
    (stdout writes, stderr writes, subprocess requests) and a final
    Except result, mirroring Rust's Fallible.

The watcher subprocess is the environment: a run is parameterised by the
parsed JSON response to the query request, the exit status of the watch
request, and the parsed JSON response to the clock request, exactly the
three observations the source code makes of it.
-/

/-- JSON values as produced/consumed by the hook (serde_json::Value,
with numbers specialised to the unsigned integers this program emits). -/
inductive Json where
  | null : Json
  | bool : Bool → Json
  | num : Nat → Json
  | str : String → Json
  | arr : List Json → Json
  | obj : List (String × Json) → Json

/-- response[key] in serde_json: on an object, the value at the key
(Null when the key is missing); Null on any non-object receiver. -/
def Json.index (j : Json) (key : String) : Json :=
  match j with
  | Json.obj fields =>
    match fields.find? (fun kv => kv.fst == key) with
    | some kv => kv.snd
    | none => Json.null
  | _ => Json.null

/-- Value::as_str: the underlying string when the value is a JSON string. -/
def Json.asStr? : Json → Option String
  | Json.str s => some s
  | _ => none

/-- Value::as_array: the underlying list when the value is a JSON array. -/
def Json.asArr? : Json → Option (List Json)
  | Json.arr l => some l
  | _ => none

/-- Accumulate a decimal value over a list of characters; any non-digit
character makes the whole parse fail (str::parse digit loop). -/
def digitsToNat : List Char → Nat → Option Nat
  | [], acc => some acc
  | c :: rest, acc =>
    if c.isDigit then digitsToNat rest (acc * 10 + (c.toNat - 48)) else none

/-- Rust's str::parse::<u64>: an optional leading plus sign, then one or
more ASCII digits, value below 2^64; anything else is a parse error. -/
def parseU64 (s : String) : Option Nat :=
  let cs :=
    match s.data with
    | '+' :: rest => rest
    | cs => cs
  if cs = [] then none
  else
    match digitsToNat cs 0 with
    | some n => if n < 18446744073709551616 then some n else none
    | none => none

/-- The token interpreter inside get_watchman_query (main.rs 161-165):
a token whose first character is c is passed through as a JSON string;
otherwise the token is parsed as u64 (defaulting to 0) and divided by
1_000_000_000. -/
def tokenValue (token : String) : Json :=
  if token.data.head? = some 'c' then Json.str token
  else Json.num ((parseU64 token).getD 0 / 1000000000)

/-- get_watchman_query (main.rs 159-181): the outbound query request. -/
def get_watchman_query (git_work_tree : String) (token : String) : Json :=
  Json.arr
    [Json.str "query",
     Json.str git_work_tree,
     Json.obj
       [("since", tokenValue token),
        ("fields", Json.arr [Json.str "name"]),
        ("expression", Json.arr [Json.str "not", Json.arr [Json.str "dirname", Json.str ".git"]])]]

/-- Observable effects of one hook invocation: bytes printed to stdout,
diagnostics printed to stderr, and the three kinds of watchman
subprocess invocations. -/
inductive Eff where
  | out : String → Eff
  | errOut : String → Eff
  | query : Json → Eff
  | watch : String → Eff
  | clock : String → Eff

/-- The environment: what the watchman subprocesses answer during one
invocation.  queryResp is the parsed response to the query request,
watchOk the exit status of the watch request, clockResp the parsed
response to the clock request. -/
structure Watcher where
  queryResp : Json
  watchOk : Bool
  clockResp : Json

/-- Concatenation of the stdout writes in a trace, in order. -/
def stdoutOf : List Eff → String
  | [] => ""
  | Eff.out s :: rest => s ++ stdoutOf rest
  | Eff.errOut _ :: rest => stdoutOf rest
  | Eff.query _ :: rest => stdoutOf rest
  | Eff.watch _ :: rest => stdoutOf rest
  | Eff.clock _ :: rest => stdoutOf rest

/-- Concatenation of a list of strings, in order. -/
def joinAll : List String → String
  | [] => ""
  | s :: rest => s ++ joinAll rest

/-- One list of characters starts with another, elementwise. -/
def startsWithChars : List Char → List Char → Bool
  | [], _ => true
  | _ :: _, [] => false
  | a :: as, b :: bs => a == b && startsWithChars as bs

/-- str::contains(pat): pat occurs as a contiguous substring of s. -/
def containsSub (s pat : String) : Bool :=
  (List.range (s.data.length + 1)).any (fun i => startsWithChars pat.data (s.data.drop i))

/-- add_to_watchman (main.rs 102-129): print the diagnostic to stderr,
run the watch subprocess, and on success print the dirty marker to
stdout; a failing exit status is a fatal error. -/
def add_to_watchman (worktree : String) (watchOk : Bool) : List Eff × Except String Unit :=
  if watchOk then
    ([Eff.errOut ("Adding " ++ worktree ++ " to Watchman's watch list"),
      Eff.watch worktree, Eff.out "/\x00"], Except.ok ())
  else
    ([Eff.errOut ("Adding " ++ worktree ++ " to Watchman's watch list"),
      Eff.watch worktree], Except.error "`watchman watch` failed")

/-- get_watchman_clock (main.rs 131-157): run the clock subprocess and
return the clock field of its response as a string, failing when that
field is absent or not a string. -/
def get_watchman_clock (worktree : String) (clockResp : Json) : List Eff × Except String String :=
  ([Eff.clock worktree],
   match (clockResp.index "clock").asStr? with
   | some clock_id => Except.ok clock_id
   | none => Except.error "failed to call watchman clock")

/-- The response-handling part of query_watchman (main.rs 67-99): the
error branch with its bootstrap sequence, then the files branch. -/
def run_query_response (token worktree : String) (w : Watcher) : List Eff × Except String Unit :=
  match (w.queryResp.index "error").asStr? with
  | some err =>
    if containsSub err "unable to resolve root" then
      match add_to_watchman worktree w.watchOk with
      | (t1, Except.error e) => (t1, Except.error e)
      | (t1, Except.ok _) =>
        match get_watchman_clock worktree w.clockResp with
        | (t2, Except.ok clock_id) =>
          (t1 ++ t2 ++ [Eff.out (clock_id ++ "\x00/\x00")], Except.ok ())
        | (t2, Except.error e) => (t1 ++ t2, Except.error e)
    else
      ([], Except.error
        ("Watchman failed for an unexpected reason " ++ err ++ " (token: " ++ token ++ ")"))
  | none =>
    match (w.queryResp.index "files").asArr? with
    | some files =>
      (Eff.out (((w.queryResp.index "clock").asStr?.getD "") ++ "\x00") ::
        files.filterMap (fun f => (f.asStr?).map (fun n => Eff.out (n ++ "\x00"))),
       Except.ok ())
    | none => ([], Except.error "missing file data")

/-- query_watchman (main.rs 36-100): build the query, send it to the
watchman subprocess, then handle the parsed response. -/
def query_watchman (token worktree : String) (w : Watcher) : List Eff × Except String Unit :=
  (Eff.query (get_watchman_query worktree token) :: (run_query_response token worktree w).1,
   (run_query_response token worktree w).2)

/-- main (main.rs 22-34): any version other than 2 is rejected before
any watchman subprocess is spawned; otherwise run query_watchman. -/
def mainRun (version : Nat) (token worktree : String) (w : Watcher) : List Eff × Except String Unit :=
  if version ≠ 2 then ([], Except.error "unsupported version")
  else query_watchman token worktree w

/-- The first NUL-terminated field of an output byte string: what git
parses as the clock token of the hook's answer. -/
def clockFieldOf (s : String) : String :=
  String.mk (s.data.takeWhile (fun c => c ≠ Char.ofNat 0))

/-! ## Helper lemmas -/

lemma startsWithChars_append (a b : List Char) : startsWithChars a (a ++ b) = true := by
  induction a with
  | nil => rfl
  | cons c t ih => simp [startsWithChars, ih]

lemma containsSub_of_data (s pat : String) (pre suf : List Char)
    (h : s.data = pre ++ pat.data ++ suf) : containsSub s pat = true := by
  unfold containsSub
  rw [List.any_eq_true]
  refine ⟨pre.length, List.mem_range.mpr ?_, ?_⟩
  · rw [h]
    simp [List.length_append]
    omega
  · rw [h, List.append_assoc, List.drop_left]
    exact startsWithChars_append pat.data suf

lemma str_append_assoc (a b c : String) : a ++ b ++ c = a ++ (b ++ c) := by
  apply String.ext
  simp [String.data_append, List.append_assoc]

lemma stdoutOf_fileOuts (files : List Json) :
    stdoutOf (files.filterMap (fun f => (f.asStr?).map (fun n => Eff.out (n ++ "\x00")))) =
      joinAll (files.filterMap (fun f => (f.asStr?).map (fun n => n ++ "\x00"))) := by
  induction files with
  | nil => rfl
  | cons f fs ih =>
    cases h : f.asStr? <;> simp [List.filterMap_cons, h, stdoutOf, joinAll, ih]

lemma str_append_empty (s : String) : s ++ "" = s := by
  apply String.ext
  rw [String.data_append]
  exact List.append_nil s.data

lemma asStr_eq_none (j : Json) (h : ∀ s, j ≠ Json.str s) : j.asStr? = none := by
  cases j <;> first | rfl | exact absurd rfl (h _)

lemma asArr_eq_none (j : Json) (h : ∀ l, j ≠ Json.arr l) : j.asArr? = none := by
  cases j <;> first | rfl | exact absurd rfl (h _)

/-- Concrete environment whose responses are all null (never consulted
on the paths it is used for). -/
def wNull : Watcher := { queryResp := Json.null, watchOk := true, clockResp := Json.null }

/-! ## Claims -/

/-- Claim C2: the token-to-clockspec conversion is a pure function of the
token: a token whose first character is c becomes the token string
verbatim; any other token that parses as a u64 value t becomes the
integer t / 1_000_000_000 (truncating); any other token becomes 0. -/
theorem C2_token_clockspec (token : String) :
    (token.data.head? = some 'c' → tokenValue token = Json.str token) ∧
    (token.data.head? ≠ some 'c' →
      (∀ t, parseU64 token = some t → tokenValue token = Json.num (t / 1000000000)) ∧
      (parseU64 token = none → tokenValue token = Json.num 0)) := by
  refine ⟨fun h => by simp [tokenValue, h], fun h => ⟨fun t ht => ?_, fun ht => ?_⟩⟩
  · simp [tokenValue, h, ht]
  · simp [tokenValue, h, ht]

/-- Witness for C2 at the three concrete tokens the spec names. -/
theorem C2_witness :
    tokenValue "c:54" = Json.str "c:54" ∧
    tokenValue "2500000000" = Json.num 2 ∧
    tokenValue "not-a-number" = Json.num 0 :=
  ⟨(C2_token_clockspec "c:54").1 (by decide),
   ((C2_token_clockspec "2500000000").2 (by decide)).1 2500000000 (by rfl),
   ((C2_token_clockspec "not-a-number").2 (by decide)).2 (by rfl)⟩

/-- Claim C7: for every work-tree root and every token, the outbound query
request is exactly the JSON value
[query, root, obj with since = interpreted token, fields = [name],
expression = [not, [dirname, .git]]], and it is the first (and only)
request event before the response is examined. -/
theorem C7_query_request_shape (token worktree : String) (w : Watcher) :
    (query_watchman token worktree w).1.head? =
      some (Eff.query (Json.arr
        [Json.str "query",
         Json.str worktree,
         Json.obj
           [("since", tokenValue token),
            ("fields", Json.arr [Json.str "name"]),
            ("expression",
             Json.arr [Json.str "not", Json.arr [Json.str "dirname", Json.str ".git"]])]])) ∧
    get_watchman_query worktree token =
      Json.arr
        [Json.str "query",
         Json.str worktree,
         Json.obj
           [("since", tokenValue token),
            ("fields", Json.arr [Json.str "name"]),
            ("expression",
             Json.arr [Json.str "not", Json.arr [Json.str "dirname", Json.str ".git"]])]] :=
  ⟨rfl, rfl⟩

/-- Claim C6: a version argument other than 2 fails before any watcher
subprocess is spawned: the result is an error and the effect trace is
empty (no query, watch or clock request, no output). -/
theorem C6_unsupported_version (version : Nat) (token worktree : String) (w : Watcher)
    (h : version ≠ 2) :
    mainRun version token worktree w = ([], Except.error "unsupported version") := by
  simp [mainRun, h]

/-- Witness for C6 at versions 1 and 3. -/
theorem C6_witness :
    mainRun 1 "123" "/repo" wNull = ([], Except.error "unsupported version") ∧
    mainRun 3 "123" "/repo" wNull = ([], Except.error "unsupported version") :=
  ⟨C6_unsupported_version 1 "123" "/repo" wNull (by decide),
   C6_unsupported_version 3 "123" "/repo" wNull (by decide)⟩

/-- Claim C8: the hook is deterministic: for a fixed version, token,
work-tree root and fixed watcher responses, two runs produce identical
effect traces (hence byte-identical standard output) and results. -/
theorem C8_deterministic (v v' : Nat) (t t' r r' : String) (w w' : Watcher)
    (hv : v = v') (ht : t = t') (hr : r = r') (hw : w = w') :
    mainRun v t r w = mainRun v' t' r' w' := by
  rw [hv, ht, hr, hw]

/-- Witness for C8 at a concrete invocation. -/
theorem C8_witness :
    mainRun 2 "c:1" "/repo" wNull = mainRun 2 "c:1" "/repo" wNull :=
  C8_deterministic 2 2 "c:1" "c:1" "/repo" "/repo" wNull wNull rfl rfl rfl rfl

/-- Claim C3: for every successful non-bootstrap query response with clock
string c and files array, stdout is exactly c, a NUL, then each string
element in order each followed by a NUL (non-string elements are skipped
and contribute nothing; an empty array yields just c and a NUL). -/
theorem C3_output_encoding (token worktree c : String) (w : Watcher) (files : List Json)
    (herr : ∀ s, w.queryResp.index "error" ≠ Json.str s)
    (hf : w.queryResp.index "files" = Json.arr files)
    (hc : w.queryResp.index "clock" = Json.str c) :
    (query_watchman token worktree w).2 = Except.ok () ∧
    stdoutOf (query_watchman token worktree w).1 =
      c ++ "\x00" ++ joinAll (files.filterMap (fun f => (f.asStr?).map (fun n => n ++ "\x00"))) := by
  have he := asStr_eq_none _ herr
  have hr : run_query_response token worktree w =
      (Eff.out (c ++ "\x00") ::
        files.filterMap (fun f => (f.asStr?).map (fun n => Eff.out (n ++ "\x00"))),
       Except.ok ()) := by
    simp [run_query_response, he, hf, hc, Json.asArr?, Json.asStr?]
  constructor
  · simp [query_watchman, hr]
  · simp [query_watchman, hr, stdoutOf, stdoutOf_fileOuts]

/-- Concrete environment for the C3 witness: the spec's example response
with clock c:123 and files [a.txt, b/c.txt]. -/
def wFiles : Watcher :=
  { queryResp := Json.obj
      [("clock", Json.str "c:123"),
       ("files", Json.arr [Json.str "a.txt", Json.str "b/c.txt"])],
    watchOk := true,
    clockResp := Json.null }

/-- Witness for C3: the spec's example yields exactly c:123 NUL a.txt NUL
b/c.txt NUL. -/
theorem C3_witness :
    (query_watchman "c:1" "/repo" wFiles).2 = Except.ok () ∧
    stdoutOf (query_watchman "c:1" "/repo" wFiles).1 =
      "c:123" ++ "\x00" ++
        joinAll ([Json.str "a.txt", Json.str "b/c.txt"].filterMap
          (fun f => (f.asStr?).map (fun n => n ++ "\x00"))) :=
  C3_output_encoding "c:1" "/repo" "c:123" wFiles [Json.str "a.txt", Json.str "b/c.txt"]
    (fun s h => Json.noConfusion h) rfl rfl

/-- Claim C5: a query response containing neither an error string nor a
files array fails with the message missing file data, and nothing has
been written to standard output. -/
theorem C5_missing_file_data (token worktree : String) (w : Watcher)
    (herr : ∀ s, w.queryResp.index "error" ≠ Json.str s)
    (hf : ∀ l, w.queryResp.index "files" ≠ Json.arr l) :
    (query_watchman token worktree w).2 = Except.error "missing file data" ∧
    stdoutOf (query_watchman token worktree w).1 = "" := by
  have he := asStr_eq_none _ herr
  have hfa := asArr_eq_none _ hf
  have hr : run_query_response token worktree w = ([], Except.error "missing file data") := by
    simp [run_query_response, he, hfa]
  constructor
  · simp [query_watchman, hr]
  · simp [query_watchman, hr, stdoutOf]

/-- Concrete environment for the C5 witness: a response with no error and
no files field at all. -/
def wEmptyResp : Watcher :=
  { queryResp := Json.obj [("version", Json.str "4.9.0")], watchOk := true, clockResp := Json.null }

/-- Witness for C5. -/
theorem C5_witness :
    (query_watchman "c:1" "/repo" wEmptyResp).2 = Except.error "missing file data" ∧
    stdoutOf (query_watchman "c:1" "/repo" wEmptyResp).1 = "" :=
  C5_missing_file_data "c:1" "/repo" wEmptyResp
    (fun s h => Json.noConfusion h) (fun l h => Json.noConfusion h)

/-- Claim C9: a query response with a files array whose clock field is
absent or not a string does not fail: the clock token is emitted as the
empty string, so the output begins with a NUL byte followed by the paths
in the usual format. -/
theorem C9_missing_clock (token worktree : String) (w : Watcher) (files : List Json)
    (herr : ∀ s, w.queryResp.index "error" ≠ Json.str s)
    (hf : w.queryResp.index "files" = Json.arr files)
    (hc : ∀ s, w.queryResp.index "clock" ≠ Json.str s) :
    (query_watchman token worktree w).2 = Except.ok () ∧
    stdoutOf (query_watchman token worktree w).1 =
      "\x00" ++ joinAll (files.filterMap (fun f => (f.asStr?).map (fun n => n ++ "\x00"))) := by
  have he := asStr_eq_none _ herr
  have hcn := asStr_eq_none _ hc
  have hr : run_query_response token worktree w =
      (Eff.out ("" ++ "\x00") ::
        files.filterMap (fun f => (f.asStr?).map (fun n => Eff.out (n ++ "\x00"))),
       Except.ok ()) := by
    simp [run_query_response, he, hf, hcn, Json.asArr?]
  constructor
  · simp [query_watchman, hr]
  · simp [query_watchman, hr, stdoutOf, stdoutOf_fileOuts]

/-- Concrete environment for the C9 witness: files present (with one
non-string element), no clock field. -/
def wNoClock : Watcher :=
  { queryResp := Json.obj [("files", Json.arr [Json.str "a.txt", Json.num 7])],
    watchOk := true,
    clockResp := Json.null }

/-- Witness for C9: output begins with a NUL byte. -/
theorem C9_witness :
    (query_watchman "c:1" "/repo" wNoClock).2 = Except.ok () ∧
    stdoutOf (query_watchman "c:1" "/repo" wNoClock).1 =
      "\x00" ++ joinAll ([Json.str "a.txt", Json.num 7].filterMap
        (fun f => (f.asStr?).map (fun n => n ++ "\x00"))) :=
  C9_missing_clock "c:1" "/repo" wNoClock [Json.str "a.txt", Json.num 7]
    (fun s h => Json.noConfusion h) rfl (fun s h => Json.noConfusion h)

/-- Claim C10: a response whose error field is not a JSON string (for
example a number or an object) is not treated as an error: the run
proceeds to the files handling, succeeding when a files array is present
and failing with missing file data otherwise. -/
theorem C10_nonstring_error (token worktree : String) (w : Watcher)
    (herr : ∀ s, w.queryResp.index "error" ≠ Json.str s) :
    (∀ files, w.queryResp.index "files" = Json.arr files →
      (query_watchman token worktree w).2 = Except.ok ()) ∧
    ((∀ l, w.queryResp.index "files" ≠ Json.arr l) →
      (query_watchman token worktree w).2 = Except.error "missing file data") := by
  have he := asStr_eq_none _ herr
  constructor
  · intro files hf
    simp [query_watchman, run_query_response, he, hf, Json.asArr?]
  · intro hf
    have hfa := asArr_eq_none _ hf
    simp [query_watchman, run_query_response, he, hfa]

/-- Concrete environment for the C10 witness: the error field is the
number 5, files is an empty array. -/
def wNumErr : Watcher :=
  { queryResp := Json.obj [("error", Json.num 5), ("files", Json.arr [])],
    watchOk := true,
    clockResp := Json.null }

/-- Witness for C10: a numeric error field is ignored and the run
succeeds on the files branch. -/
theorem C10_witness :
    (query_watchman "c:1" "/repo" wNumErr).2 = Except.ok () :=
  (C10_nonstring_error "c:1" "/repo" wNumErr (fun s h => Json.noConfusion h)).1
    [] rfl

/-- Claim C4: for a query response carrying an error string e, the
bootstrap path (a watch request) is taken exactly when e contains the
substring "unable to resolve root"; for any other error string the run
fails and the failure message contains both the literal error text and
the original token. -/
theorem C4_error_gate (token worktree e : String) (w : Watcher)
    (he : w.queryResp.index "error" = Json.str e) :
    ((Eff.watch worktree ∈ (query_watchman token worktree w).1) ↔
      containsSub e "unable to resolve root" = true) ∧
    (containsSub e "unable to resolve root" = false →
      (query_watchman token worktree w).2 =
        Except.error ("Watchman failed for an unexpected reason " ++ e ++
          " (token: " ++ token ++ ")") ∧
      containsSub ("Watchman failed for an unexpected reason " ++ e ++
        " (token: " ++ token ++ ")") e = true ∧
      containsSub ("Watchman failed for an unexpected reason " ++ e ++
        " (token: " ++ token ++ ")") token = true) := by
  have hes : (w.queryResp.index "error").asStr? = some e := by rw [he]; rfl
  cases hc : containsSub e "unable to resolve root" with
  | true =>
    refine ⟨⟨fun _ => rfl, fun _ => ?_⟩, fun hfalse => by simp [hc] at hfalse⟩
    cases hw : w.watchOk with
    | true =>
      cases hcl : (w.clockResp.index "clock").asStr? with
      | some clock_id =>
        simp [query_watchman, run_query_response, hes, hc, add_to_watchman, hw,
          get_watchman_clock, hcl]
      | none =>
        simp [query_watchman, run_query_response, hes, hc, add_to_watchman, hw,
          get_watchman_clock, hcl]
    | false =>
      simp [query_watchman, run_query_response, hes, hc, add_to_watchman, hw]
  | false =>
    have hrun : run_query_response token worktree w =
        ([], Except.error ("Watchman failed for an unexpected reason " ++ e ++
          " (token: " ++ token ++ ")")) := by
      simp [run_query_response, hes, hc]
    refine ⟨?_, fun _ => ⟨by simp [query_watchman, hrun], ?_, ?_⟩⟩
    · constructor
      · intro hmem
        exfalso
        simp [query_watchman, hrun] at hmem
      · intro h
        exact Bool.noConfusion h
    · exact containsSub_of_data _ _
        ("Watchman failed for an unexpected reason ").data
        ((" (token: " ++ token ++ ")").data)
        (by simp [String.data_append, List.append_assoc])
    · exact containsSub_of_data _ _
        (("Watchman failed for an unexpected reason " ++ e ++ " (token: ").data)
        (")".data)
        (by simp [String.data_append, List.append_assoc])

/-- Concrete environment for the C4 witness, bootstrap side: the watcher
reports it cannot resolve the root. -/
def wUnresolved : Watcher :=
  { queryResp := Json.obj [("error", Json.str "unable to resolve root 'foo'")],
    watchOk := true,
    clockResp := Json.obj [("clock", Json.str "c:99")] }

/-- Concrete environment for the C4 witness, fatal side: some other
watcher error. -/
def wOtherErr : Watcher :=
  { queryResp := Json.obj [("error", Json.str "some other problem")],
    watchOk := true,
    clockResp := Json.null }

/-- Witness for C4: with an unable-to-resolve-root error the watch
request is issued; with any other error the run fails with a message
containing the error text and the token. -/
theorem C4_witness :
    Eff.watch "/repo" ∈ (query_watchman "c:1" "/repo" wUnresolved).1 ∧
    (query_watchman "t0" "/repo" wOtherErr).2 =
      Except.error ("Watchman failed for an unexpected reason " ++ "some other problem" ++
        " (token: " ++ "t0" ++ ")") :=
  ⟨((C4_error_gate "c:1" "/repo" "unable to resolve root 'foo'" wUnresolved rfl).1).mpr
      (by decide),
   (((C4_error_gate "t0" "/repo" "some other problem" wOtherErr rfl).2) (by decide)).1⟩

/-- Claim C1 (amended): in the bootstrap path (query error string
containing "unable to resolve root", watch succeeding) the hook issues
the watch request and then the clock request, and the dirty marker /NUL
is written at watch-registration time, before the clock request is
issued; if the clock fetch fails the bytes already written are exactly
/NUL; once the clock fetch succeeds the bytes clock_id NUL / NUL are
written in addition, so the complete output is /NUL clock_id NUL /NUL:
the freshly fetched clock id appears in the output, but as the second
NUL-terminated field, while the first field (the clock token of the
output) remains /. -/
theorem C1_bootstrap_sequence (token worktree e : String) (w : Watcher)
    (he : w.queryResp.index "error" = Json.str e)
    (hc : containsSub e "unable to resolve root" = true)
    (hw : w.watchOk = true) :
    (∀ clock_id, (w.clockResp.index "clock").asStr? = some clock_id →
      query_watchman token worktree w =
        ([Eff.query (get_watchman_query worktree token),
          Eff.errOut ("Adding " ++ worktree ++ " to Watchman's watch list"),
          Eff.watch worktree, Eff.out "/\x00", Eff.clock worktree,
          Eff.out (clock_id ++ "\x00/\x00")], Except.ok ()) ∧
      stdoutOf (query_watchman token worktree w).1 = "/\x00" ++ clock_id ++ "\x00/\x00") ∧
    ((w.clockResp.index "clock").asStr? = none →
      query_watchman token worktree w =
        ([Eff.query (get_watchman_query worktree token),
          Eff.errOut ("Adding " ++ worktree ++ " to Watchman's watch list"),
          Eff.watch worktree, Eff.out "/\x00", Eff.clock worktree],
         Except.error "failed to call watchman clock") ∧
      stdoutOf (query_watchman token worktree w).1 = "/\x00") := by
  have hes : (w.queryResp.index "error").asStr? = some e := by rw [he]; rfl
  constructor
  · intro clock_id hcl
    have hr : run_query_response token worktree w =
        ([Eff.errOut ("Adding " ++ worktree ++ " to Watchman's watch list"),
          Eff.watch worktree, Eff.out "/\x00", Eff.clock worktree,
          Eff.out (clock_id ++ "\x00/\x00")], Except.ok ()) := by
      simp [run_query_response, hes, hc, add_to_watchman, hw, get_watchman_clock, hcl]
    constructor
    · simp [query_watchman, hr]
    · simp [query_watchman, hr, stdoutOf, str_append_empty, str_append_assoc]
  · intro hcl
    have hr : run_query_response token worktree w =
        ([Eff.errOut ("Adding " ++ worktree ++ " to Watchman's watch list"),
          Eff.watch worktree, Eff.out "/\x00", Eff.clock worktree],
         Except.error "failed to call watchman clock") := by
      simp [run_query_response, hes, hc, add_to_watchman, hw, get_watchman_clock, hcl]
    constructor
    · simp [query_watchman, hr]
    · simp [query_watchman, hr, stdoutOf, str_append_empty]

/-- Concrete environment for C1: the watcher cannot resolve the root,
the watch request succeeds, and the clock request returns c:99. -/
def wBoot : Watcher :=
  { queryResp := Json.obj [("error", Json.str "unable to resolve root 'foo'")],
    watchOk := true,
    clockResp := Json.obj [("clock", Json.str "c:99")] }

/-- Witness for the amended C1 at the spec's concrete bootstrap
scenario. -/
theorem C1_witness :
    query_watchman "123" "/repo" wBoot =
      ([Eff.query (get_watchman_query "/repo" "123"),
        Eff.errOut ("Adding " ++ "/repo" ++ " to Watchman's watch list"),
        Eff.watch "/repo", Eff.out "/\x00", Eff.clock "/repo",
        Eff.out ("c:99" ++ "\x00/\x00")], Except.ok ()) ∧
    stdoutOf (query_watchman "123" "/repo" wBoot).1 = "/\x00" ++ "c:99" ++ "\x00/\x00" :=
  (C1_bootstrap_sequence "123" "/repo" "unable to resolve root 'foo'" wBoot rfl
    (by decide) rfl).1 "c:99" rfl

/-- Counterexample to C1 as stated: at the spec's own bootstrap scenario
(error "unable to resolve root 'foo'", clock request answering c:99),
the bytes emitted are /NUL c:99 NUL /NUL, not /NUL /NUL, and the first
NUL-terminated field of the output (the clock token git reads back) is
/, not the freshly fetched c:99. -/
theorem C1_counterexample :
    stdoutOf (query_watchman "123" "/repo" wBoot).1 = "/\x00c:99\x00/\x00" ∧
    stdoutOf (query_watchman "123" "/repo" wBoot).1 ≠ "/\x00/\x00" ∧
    clockFieldOf (stdoutOf (query_watchman "123" "/repo" wBoot).1) = "/" ∧
    clockFieldOf (stdoutOf (query_watchman "123" "/repo" wBoot).1) ≠ "c:99" :=
  ⟨by decide, by decide, by decide, by decide⟩
